import Mathlib

/-!
Verification development for `src/input/decoder_helpers.c` of the VLC
repository: the decoder lifecycle helpers, the decoder-device open/refcount
protocol, and the video-context refcount/typed-payload protocol.

The C code is shallowly embedded: pointers become `Option`, the opaque
backend pointers become `Option Nat` (a pointer is only compared against
NULL by this code, never dereferenced), structs become structures, and
side effects (frees, callback invocations, resource clearing) are made
explicit in the return values.  `vlc_assert`/`assert` (active in debug
builds) is modelled where a claim depends on it, as noted at each
definition.
-/

namespace DecoderHelpers

/-- C `enum es_format_category_e`: the category of an elementary stream. -/
inductive es_format_category_e where
  | UNKNOWN_ES
  | VIDEO_ES
  | AUDIO_ES
  | SPU_ES
  | DATA_ES
  deriving DecidableEq, Repr

open es_format_category_e

/-- C `es_format_t`, reduced to the parts `decoder_helpers.c` touches: the
category, the codec, the video-format sub-struct (an opaque value here),
and the owned extra-data buffer (an allocation identified by a `Nat`,
`none` when the pointer is NULL). -/
structure es_format_t where
  i_cat : es_format_category_e
  i_codec : Nat
  video : Nat
  p_extra : Option Nat
  deriving DecidableEq, Repr

/-- Modelled from the spec: `es_format_Init` (outside `src/`) initializes a
format descriptor to the given category with the given codec and no owned
substructures ("default-initializes the output descriptor to the same
category with zero codec"). -/
def es_format_Init (i_cat : es_format_category_e) (i_codec : Nat) : es_format_t :=
  { i_cat := i_cat, i_codec := i_codec, video := 0, p_extra := none }

/-- Modelled from the spec: `es_format_Copy` (outside `src/`) performs a deep
copy of a format descriptor ("deep copy — decoder does not alias caller-owned
format memory").  In this value semantics a deep copy is the value itself;
ownership of the copy is tracked by the free log of whoever cleans it. -/
def es_format_Copy (fmt : es_format_t) : es_format_t := fmt

/-- Modelled from the spec: `es_format_Clean` (outside `src/`) "releases both
format descriptors' owned substructures (e.g., extradata buffers)" and leaves
the descriptor re-initialized to an empty state, as required for `Clean` to
be "idempotent-safe".  Returns the cleaned descriptor and the list of
allocations it freed. -/
def es_format_Clean (fmt : es_format_t) : es_format_t × List Nat :=
  (es_format_Init UNKNOWN_ES 0,
   match fmt.p_extra with
   | some b => [b]
   | none => [])

/-- The video part of `struct decoder_owner_callbacks`.  Each hook is owned
by the surrounding pipeline and is opaque to this code; a hook is modelled by
the value it returns when invoked (`none` = the function pointer is NULL):
`format_update` by the `int` it returns, `buffer_new` by the `picture_t *`
it returns (itself an `Option Nat`: a picture allocation or NULL). -/
structure decoder_video_cbs where
  format_update : Option Int
  buffer_new : Option (Option Nat)
  abort_pictures : Option Unit
  deriving DecidableEq, Repr

/-- C `struct decoder_owner_callbacks`, reduced to the video hooks used here. -/
structure decoder_owner_callbacks where
  video : decoder_video_cbs
  deriving DecidableEq, Repr

/-- C `decoder_t`, reduced to the fields `decoder_helpers.c` touches.  The
function-pointer slots `pf_*`, the module, and the description object are
opaque allocations (`Option Nat`); `cbs` is the optional owner-callback
table. -/
structure decoder_t where
  i_extra_picture_buffers : Nat
  b_frame_drop_allowed : Bool
  pf_decode : Option Nat
  pf_get_cc : Option Nat
  pf_packetize : Option Nat
  pf_flush : Option Nat
  p_module : Option Nat
  fmt_in : es_format_t
  fmt_out : es_format_t
  p_description : Option Nat
  cbs : Option decoder_owner_callbacks
  deriving DecidableEq, Repr

/-- C `decoder_Init`: each C assignment in source order, then the two format
operations. -/
def decoder_Init (p_dec : decoder_t) (p_fmt : es_format_t) : decoder_t :=
  let p_dec := { p_dec with i_extra_picture_buffers := 0 }
  let p_dec := { p_dec with b_frame_drop_allowed := false }
  let p_dec := { p_dec with pf_decode := none }
  let p_dec := { p_dec with pf_get_cc := none }
  let p_dec := { p_dec with pf_packetize := none }
  let p_dec := { p_dec with pf_flush := none }
  let p_dec := { p_dec with p_module := none }
  let p_dec := { p_dec with fmt_in := es_format_Copy p_fmt }
  let p_dec := { p_dec with fmt_out := es_format_Init p_fmt.i_cat 0 }
  p_dec

/-- C `decoder_Clean`: unload the module if loaded (`module_unneed`, an
external release, is recorded in the free log) and clear the slot; clean
both format descriptors; delete the description (`vlc_meta_Delete`,
recorded in the free log) if present and clear it.  Returns the cleaned
decoder and the log of releases performed, appended to `log`. -/
def decoder_Clean (p_dec : decoder_t) (log : List Nat) : decoder_t × List Nat :=
  let (p_dec, log) :=
    match p_dec.p_module with
    | some m => ({ p_dec with p_module := none }, log ++ [m])
    | none => (p_dec, log)
  let (fin, freed_in) := es_format_Clean p_dec.fmt_in
  let (fout, freed_out) := es_format_Clean p_dec.fmt_out
  let p_dec := { p_dec with fmt_in := fin, fmt_out := fout }
  let log := log ++ freed_in ++ freed_out
  match p_dec.p_description with
  | some d => ({ p_dec with p_description := none }, log ++ [d])
  | none => (p_dec, log)

/-- C `decoder_UpdateVideoOutput`.  Release-build semantics: `vlc_assert` is
compiled out and the explicit defensive check decides.  The result is the
returned `int` paired with the argument the `format_update` hook was invoked
with (`none` = no hook invocation; `some a` = one invocation passing the
optional video-context `a`, a context identified by a `Nat`). -/
def decoder_UpdateVideoOutput (dec : decoder_t) (vctx_out : Option Nat) :
    Int × Option (Option Nat) :=
  if dec.fmt_in.i_cat ≠ VIDEO_ES then (-1, none)
  else
    match dec.cbs with
    | none => (-1, none)
    | some cbs =>
      match cbs.video.format_update with
      | none => (-1, none)
      | some ret => (ret, some vctx_out)

/-- C `decoder_UpdateVideoFormat`: the same operation with no context. -/
def decoder_UpdateVideoFormat (dec : decoder_t) : Int × Option (Option Nat) :=
  decoder_UpdateVideoOutput dec none

/-- C `decoder_NewPicture`.  Release-build semantics: `vlc_assert` is compiled
out, and the code dereferences `dec->cbs` unconditionally — a NULL table is
undefined behavior, modelled as the outer `none`.  Otherwise `some r` where
`r` is the returned `picture_t *`: the `buffer_new` hook's result if the
hook is set, else `picture_NewFromFormat` (external, passed in as a function
from the output video format to an optional picture allocation). -/
def decoder_NewPicture (picture_NewFromFormat : Nat → Option Nat)
    (dec : decoder_t) : Option (Option Nat) :=
  match dec.cbs with
  | none => none
  | some cbs =>
    match cbs.video.buffer_new with
    | none => some (picture_NewFromFormat dec.fmt_out.video)
    | some pic => some pic

/-! Part 2: the decoder device. -/

/-- C `enum vlc_decoder_device_type` from `vlc_codec.h`. -/
inductive vlc_decoder_device_type where
  | VLC_DECODER_DEVICE_NONE
  | VLC_DECODER_DEVICE_VAAPI
  | VLC_DECODER_DEVICE_VDPAU
  | VLC_DECODER_DEVICE_DXVA2
  | VLC_DECODER_DEVICE_D3D11VA
  | VLC_DECODER_DEVICE_VIDEOTOOLBOX
  | VLC_DECODER_DEVICE_AWINDOW
  | VLC_DECODER_DEVICE_NVDEC
  | VLC_DECODER_DEVICE_MMAL
  deriving DecidableEq, Repr

open vlc_decoder_device_type

/-- C `struct vlc_decoder_device_operations`: the backend's `close` hook,
opaque to this code; modelled by its allocation identity (`none` = NULL). -/
structure vlc_decoder_device_operations where
  close : Option Nat
  deriving DecidableEq, Repr

/-- C `struct vlc_decoder_device`, together with the per-object resource list
that `vlc_objres_clear` empties (in C those resources hang off the embedding
`vlc_object_t`, not off the struct itself; they are the "resources the
device handle itself may have accumulated").  `ops` is the backend
operations table, `sys` the backend-private pointer, `opaque_ptr` the
`opaque` field — all opaque allocations. -/
structure vlc_decoder_device where
  ops : Option vlc_decoder_device_operations
  sys : Option Nat
  type : vlc_decoder_device_type
  opaque_ptr : Option Nat
  objres : List Nat
  deriving DecidableEq, Repr

/-- C `VLC_SUCCESS` from `vlc_common.h`. -/
def VLC_SUCCESS : Int := 0

/-- C `decoder_device_Open`: the open-attempt wrapper handed to
`vlc_module_load`.  The candidate backend's open function is modelled by its
effect `open_cb : device ↦ (return code, device after the call)`.  Debug
semantics for the `assert` on the success path: `none` means the assertion
`device->type != VLC_DECODER_DEVICE_NONE` failed (the program aborts);
`some (ret, dev)` means the wrapper returned `ret` leaving the device in
state `dev`.  On failure the wrapper clears the object resources
(`vlc_objres_clear`) and resets `sys`, `type` and `opaque`. -/
def decoder_device_Open (open_cb : vlc_decoder_device → Int × vlc_decoder_device)
    (device : vlc_decoder_device) : Option (Int × vlc_decoder_device) :=
  let (ret, dev) := open_cb device
  if ret ≠ VLC_SUCCESS then
    some (ret, { dev with objres := [], sys := none,
                          type := VLC_DECODER_DEVICE_NONE, opaque_ptr := none })
  else
    if dev.type = VLC_DECODER_DEVICE_NONE then none
    else some (ret, dev)

/-- C `struct vlc_decoder_device_priv`: the device plus its reference count. -/
structure vlc_decoder_device_priv where
  device : vlc_decoder_device
  rc : Nat
  deriving DecidableEq, Repr

/-- C `vlc_decoder_device_Create`.  `allocOk` models whether
`vlc_object_create` succeeds; `loaded` models the outcome of
`vlc_module_load` driving `decoder_device_Open` over the candidates:
`none` when no candidate succeeded, `some dev` the device state left by the
winning candidate.  Result (debug semantics for `assert(ops != NULL)`):
`none` = assertion abort; `some (d, deleted)` = the returned device
(`none` = the C function returned NULL) paired with whether
`vlc_object_delete` was called on the partially allocated device object. -/
def vlc_decoder_device_Create (allocOk : Bool)
    (loaded : Option vlc_decoder_device) :
    Option (Option vlc_decoder_device_priv × Bool) :=
  if !allocOk then some (none, false)
  else
    match loaded with
    | none => some (none, true)
    | some dev =>
      if dev.ops = none then none
      else some (some { device := dev, rc := 1 }, false)

/-! Part 3: atomic reference counting (`vlc_atomic_rc_t`).

`vlc_atomic_rc_init` sets the counter to 1; `vlc_atomic_rc_inc` is an atomic
increment; `vlc_atomic_rc_dec` is an atomic decrement returning `true`
exactly when it brought the counter to zero.  An execution interleaved
across threads is a sequence of these atomic steps, so an arbitrary
interleaving of `Hold`/`Release` calls is an arbitrary list of operations
applied in order. -/

/-- C `vlc_atomic_rc_inc`. -/
def vlc_atomic_rc_inc (c : Nat) : Nat := c + 1

/-- C `vlc_atomic_rc_dec`: the decremented counter, and whether this
decrement observed zero (the single atomic decrement-and-test). -/
def vlc_atomic_rc_dec (c : Nat) : Nat × Bool := (c - 1, c = 1)

/-- One `Hold` or `Release` call on a refcounted handle. -/
inductive RcOp where
  | hold
  | release
  deriving DecidableEq, Repr

/-- One atomic step of the `Hold`/`Release` protocol shared by
`vlc_decoder_device_Hold`/`_Release` and `vlc_video_context_Hold`/`_Release`:
state = (counter, number of times the teardown path — backend `close` /
`destroy` hook plus free — has run).  `Release` runs teardown exactly when
its atomic decrement observes zero. -/
def rcStep (s : Nat × Nat) (op : RcOp) : Nat × Nat :=
  match op with
  | .hold => (vlc_atomic_rc_inc s.1, s.2)
  | .release =>
    let (c, reachedZero) := vlc_atomic_rc_dec s.1
    if reachedZero then (c, s.2 + 1) else (c, s.2)

/-- Run a whole interleaving from the state after creation
(`vlc_atomic_rc_init`: counter 1, teardown never run). -/
def rcRun (t : List RcOp) : Nat × Nat :=
  t.foldl rcStep (1, 0)

/-- Number of `hold` steps in a trace. -/
def holds (t : List RcOp) : Nat := t.count .hold

/-- Number of `release` steps in a trace. -/
def releases (t : List RcOp) : Nat := t.count .release

/-! Part 4: the video context. -/

/-- C `enum vlc_video_context_type` from `vlc_codec.h`: the type tag naming
which backend's private layout trails the context. -/
inductive vlc_video_context_type where
  | VLC_VIDEO_CONTEXT_VAAPI
  | VLC_VIDEO_CONTEXT_VDPAU
  | VLC_VIDEO_CONTEXT_DXVA2
  | VLC_VIDEO_CONTEXT_D3D11VA
  | VLC_VIDEO_CONTEXT_AWINDOW
  | VLC_VIDEO_CONTEXT_NVDEC
  | VLC_VIDEO_CONTEXT_CVPX
  | VLC_VIDEO_CONTEXT_MMAL
  deriving DecidableEq, Repr

/-- C `struct vlc_video_context_operations`: the `destroy` hook, opaque to
this code; modelled by its allocation identity (`none` = NULL). -/
structure vlc_video_context_operations where
  destroy : Option Nat
  deriving DecidableEq, Repr

/-- C `struct vlc_video_context`.  The trailing flexible array member
`uint8_t private[]` becomes `private_data`, the list of its
`private_size` bytes (its address is modelled by the list itself: the
region a pointer to it makes addressable). The held decoder device is its
pointer identity. -/
structure vlc_video_context where
  rc : Nat
  device : Option Nat
  ops : Option vlc_video_context_operations
  private_type : vlc_video_context_type
  private_size : Nat
  private_data : List Nat
  deriving DecidableEq, Repr

/-- C `vlc_video_context_Create`.  `allocOk` models whether `malloc` of
`sizeof(*vctx) + private_size` succeeds; `uninit` gives the (unspecified)
initial content of byte `i` of the fresh private region, which `malloc`
does not initialize.  Returns the created context (`none` = the C function
returned NULL) paired with whether `vlc_decoder_device_Hold` was called on
the device — the code calls it exactly when `vctx->device` is non-NULL. -/
def vlc_video_context_Create (allocOk : Bool) (uninit : Nat → Nat)
    (device : Option Nat) (private_type : vlc_video_context_type)
    (private_size : Nat) (ops : Option vlc_video_context_operations) :
    Option vlc_video_context × Bool :=
  if !allocOk then (none, false)
  else
    let vctx : vlc_video_context :=
      { rc := 1
        private_type := private_type
        private_size := private_size
        device := device
        ops := ops
        private_data := (List.range private_size).map uninit }
    (some vctx, vctx.device.isSome)

/-- C `vlc_video_context_GetPrivate`: the address of the trailing payload when
the context is non-NULL and the stored tag matches, otherwise NULL. -/
def vlc_video_context_GetPrivate (vctx : Option vlc_video_context)
    (type : vlc_video_context_type) : Option (List Nat) :=
  match vctx with
  | some v => if v.private_type = type then some v.private_data else none
  | none => none

/-- C `vlc_video_context_GetType`: the stored tag, unconditionally (the C
function dereferences its argument, so a NULL context is caller error). -/
def vlc_video_context_GetType (vctx : vlc_video_context) :
    vlc_video_context_type :=
  vctx.private_type

/-- C `vlc_video_context_Hold`. -/
def vlc_video_context_Hold (vctx : vlc_video_context) : vlc_video_context :=
  { vctx with rc := vlc_atomic_rc_inc vctx.rc }

/-- One side effect performed by `vlc_video_context_Release` on its
teardown path, in program order. -/
inductive VCtxEvent where
  | releaseDevice (d : Nat)
  | destroyHook (hook : Nat) (arg : Option (List Nat))
  | freeCtx
  deriving DecidableEq, Repr

/-- C `vlc_video_context_Release`: atomically decrement; when the decrement
observes zero, release the held device reference (if any), invoke the
`destroy` hook (if `ops` and `ops->destroy` are set) passing
`vlc_video_context_GetPrivate(vctx, vctx->private_type)`, then free the
context.  Returns the surviving context (`none` once freed) and the list
of side effects in the order performed. -/
def vlc_video_context_Release (vctx : vlc_video_context) :
    Option vlc_video_context × List VCtxEvent :=
  let (c, reachedZero) := vlc_atomic_rc_dec vctx.rc
  if reachedZero then
    (none,
      (match vctx.device with
       | some d => [VCtxEvent.releaseDevice d]
       | none => []) ++
      (match vctx.ops with
       | some ops =>
         match ops.destroy with
         | some h =>
           [VCtxEvent.destroyHook h
             (vlc_video_context_GetPrivate (some vctx) vctx.private_type)]
         | none => []
       | none => []) ++
      [VCtxEvent.freeCtx])
  else
    (some { vctx with rc := c }, [])

/-- C `vlc_video_context_HoldDevice`: NULL when the context holds no device,
otherwise a freshly held reference to the held device. -/
def vlc_video_context_HoldDevice (vctx : vlc_video_context) : Option Nat :=
  match vctx.device with
  | none => none
  | some d => some d

/-! Part 5: concrete fixtures used by witnesses and counterexamples. -/

/-- An audio-category format with no owned substructures. -/
def fmtAudio : es_format_t :=
  { i_cat := es_format_category_e.AUDIO_ES, i_codec := 0, video := 0,
    p_extra := none }

/-- A decoder with audio input format and no callback table. -/
def decAudioNoCbs : decoder_t :=
  { i_extra_picture_buffers := 0, b_frame_drop_allowed := false,
    pf_decode := none, pf_get_cc := none, pf_packetize := none,
    pf_flush := none, p_module := none, fmt_in := fmtAudio,
    fmt_out := fmtAudio, p_description := none, cbs := none }

/-- A decoder with audio input format whose callback table is set and whose
`buffer_new` hook returns picture allocation 7. -/
def decAudioWithCbs : decoder_t :=
  { decAudioNoCbs with
    cbs := some { video := { format_update := some 0,
                             buffer_new := some (some 7),
                             abort_pictures := none } } }

/-- A video context holding device 4, with a `destroy` hook (allocation 9),
tag VAAPI, a 2-byte payload and a reference count of 1. -/
def vctxFix : vlc_video_context :=
  { rc := 1, device := some 4,
    ops := some { destroy := some 9 },
    private_type := vlc_video_context_type.VLC_VIDEO_CONTEXT_VAAPI,
    private_size := 2, private_data := [3, 5] }

/-- A zeroed decoder device as `vlc_object_create` leaves it. -/
def devBlank : vlc_decoder_device :=
  { ops := none, sys := none,
    type := vlc_decoder_device_type.VLC_DECODER_DEVICE_NONE,
    opaque_ptr := none, objres := [] }

/-- A candidate backend open function that accumulates state on the device
(private pointer, kind tag, an object resource) and then fails with -2. -/
def failOpen (d : vlc_decoder_device) : Int × vlc_decoder_device :=
  (-2, { d with sys := some 1,
                type := vlc_decoder_device_type.VLC_DECODER_DEVICE_VAAPI,
                objres := [7] })

/-- A device state left by a successful backend open: kind tag VAAPI,
private pointer set, operations table with a `close` hook. -/
def devOpened : vlc_decoder_device :=
  { ops := some { close := some 2 }, sys := some 3,
    type := vlc_decoder_device_type.VLC_DECODER_DEVICE_VAAPI,
    opaque_ptr := none, objres := [] }

/-- The context produced by `vlc_video_context_Create true (fun i => i)
(some 5) NVDEC 3 none`. -/
def vctxCreated : vlc_video_context :=
  { rc := 1, device := some 5, ops := none,
    private_type := vlc_video_context_type.VLC_VIDEO_CONTEXT_NVDEC,
    private_size := 3, private_data := [0, 1, 2] }

/-! Part 6: the claims. -/

/-- C1: the open-attempt wrapper `decoder_device_Open`, given a candidate
whose open function returns non-success, resets the device's private
pointer, kind tag (to NONE) and `opaque` field and clears the resources
accumulated on the device object, so the next candidate starts from a clean
device; and whenever the wrapper returns success, the device's kind tag is
not NONE (the wrapper asserts this). -/
theorem C1_device_Open_rollback
    (open_cb : vlc_decoder_device → Int × vlc_decoder_device)
    (device : vlc_decoder_device) :
    (∀ ret dev, open_cb device = (ret, dev) → ret ≠ VLC_SUCCESS →
      decoder_device_Open open_cb device =
        some (ret, { dev with objres := [], sys := none,
                              type := vlc_decoder_device_type.VLC_DECODER_DEVICE_NONE,
                              opaque_ptr := none })) ∧
    (∀ ret dev, decoder_device_Open open_cb device = some (ret, dev) →
      ret = VLC_SUCCESS →
      dev.type ≠ vlc_decoder_device_type.VLC_DECODER_DEVICE_NONE) := by
  constructor
  · intro ret dev hcall hret
    simp [decoder_device_Open, hcall, hret]
  · intro ret dev hres hret
    rcases hcall : open_cb device with ⟨r, d⟩
    by_cases hr : r = VLC_SUCCESS
    · by_cases ht : d.type = vlc_decoder_device_type.VLC_DECODER_DEVICE_NONE
      · simp [decoder_device_Open, hcall, hr, ht] at hres
      · simp [decoder_device_Open, hcall, hr, ht] at hres
        rw [← hres.2]
        exact ht
    · simp [decoder_device_Open, hcall, hr] at hres
      exact absurd (hres.1.trans hret) hr

/-- Witness for C1: the failing candidate `failOpen` leaves the device reset
to the blank state. -/
theorem C1_device_Open_rollback_witness :
    decoder_device_Open failOpen devBlank = some (-2, devBlank) := by
  have := (C1_device_Open_rollback failOpen devBlank).1 (-2)
    { devBlank with sys := some 1,
                    type := vlc_decoder_device_type.VLC_DECODER_DEVICE_VAAPI,
                    objres := [7] } rfl (by decide)
  simpa [devBlank] using this

/-- C4: `vlc_decoder_device_Create` either fails returning no device — when
allocation fails, or when no candidate succeeds, in which case the partially
allocated device object is deleted — or succeeds with a device whose
operations table is non-null and whose reference count is exactly one. -/
theorem C4_device_Create (allocOk : Bool) (loaded : Option vlc_decoder_device) :
    (allocOk = false →
      vlc_decoder_device_Create allocOk loaded = some (none, false)) ∧
    (allocOk = true → loaded = none →
      vlc_decoder_device_Create allocOk loaded = some (none, true)) ∧
    (∀ p flag, vlc_decoder_device_Create allocOk loaded = some (some p, flag) →
      p.rc = 1 ∧ p.device.ops ≠ none) := by
  refine ⟨fun h => by simp [vlc_decoder_device_Create, h],
          fun h1 h2 => by simp [vlc_decoder_device_Create, h1, h2], ?_⟩
  intro p flag h
  cases allocOk with
  | false => simp [vlc_decoder_device_Create] at h
  | true =>
    cases loaded with
    | none => simp [vlc_decoder_device_Create] at h
    | some dev =>
      by_cases ho : dev.ops = none
      · simp [vlc_decoder_device_Create, ho] at h
      · simp [vlc_decoder_device_Create, ho] at h
        rw [← h.1]
        exact ⟨rfl, ho⟩

/-- Witness for C4: creation from the successfully opened device yields
reference count one and a non-null operations table. -/
theorem C4_device_Create_witness :
    vlc_decoder_device_priv.rc { device := devOpened, rc := 1 } = 1 ∧
    vlc_decoder_device.ops devOpened ≠ none :=
  (C4_device_Create true (some devOpened)).2.2
    { device := devOpened, rc := 1 } false (by decide)

/-- C7: `vlc_video_context_Create` returns no context when allocation fails,
with no `Hold` performed; on success the reference count is one, the tag,
size, operations table and device field are stored as given,
`vlc_decoder_device_Hold` is called exactly when the device is non-null,
and the context carries a private payload of exactly the requested size,
reachable through `GetPrivate` with the matching tag and absent for every
other tag. -/
theorem C7_vctx_Create (allocOk : Bool) (uninit : Nat → Nat)
    (device : Option Nat) (pt : vlc_video_context_type) (ps : Nat)
    (ops : Option vlc_video_context_operations) :
    (allocOk = false →
      vlc_video_context_Create allocOk uninit device pt ps ops = (none, false)) ∧
    (allocOk = true →
      ((vlc_video_context_Create allocOk uninit device pt ps ops).1).isSome) ∧
    (∀ v, (vlc_video_context_Create allocOk uninit device pt ps ops).1 = some v →
      (vlc_video_context_Create allocOk uninit device pt ps ops).2 = device.isSome ∧
      v.rc = 1 ∧ v.private_type = pt ∧ v.private_size = ps ∧
      v.device = device ∧ v.ops = ops ∧
      vlc_video_context_GetPrivate (some v) pt = some v.private_data ∧
      v.private_data.length = ps ∧
      (∀ t, t ≠ pt → vlc_video_context_GetPrivate (some v) t = none)) := by
  refine ⟨fun h => by simp [vlc_video_context_Create, h],
          fun h => by simp [vlc_video_context_Create, h], ?_⟩
  intro v hv
  cases allocOk with
  | false => simp [vlc_video_context_Create] at hv
  | true =>
    simp [vlc_video_context_Create] at hv
    subst hv
    refine ⟨by simp [vlc_video_context_Create], rfl, rfl, rfl, rfl, rfl,
            by simp [vlc_video_context_GetPrivate], by simp, ?_⟩
    intro t ht
    simp [vlc_video_context_GetPrivate]
    exact fun h => absurd h.symm ht

/-- Witness for C7: the payload of the concrete created context is reachable
with the matching tag. -/
theorem C7_vctx_Create_witness :
    vlc_video_context_GetPrivate (some vctxCreated)
      vlc_video_context_type.VLC_VIDEO_CONTEXT_NVDEC =
      some vctxCreated.private_data :=
  ((C7_vctx_Create true (fun i => i) (some 5)
      vlc_video_context_type.VLC_VIDEO_CONTEXT_NVDEC 3 none).2.2 vctxCreated
      (by decide)).2.2.2.2.2.2.1

/-- C8: when `vlc_video_context_Release` brings the reference count to zero
it performs, in order: release of the held device reference if one is held,
invocation of the `destroy` hook — when the operations table and its
`destroy` entry are present — with the address of the private payload as
argument, and then the free of the context's own storage. -/
theorem C8_Release_teardown (vctx : vlc_video_context) (h : vctx.rc = 1) :
    (vlc_video_context_Release vctx).1 = none ∧
    (vlc_video_context_Release vctx).2 =
      (match vctx.device with
       | some d => [VCtxEvent.releaseDevice d]
       | none => []) ++
      (match vctx.ops with
       | some ops =>
         match ops.destroy with
         | some hk => [VCtxEvent.destroyHook hk (some vctx.private_data)]
         | none => []
       | none => []) ++
      [VCtxEvent.freeCtx] := by
  unfold vlc_video_context_Release
  simp [vlc_atomic_rc_dec, h, vlc_video_context_GetPrivate]

/-- Witness for C8: releasing the last reference of the concrete context
releases device 4, then invokes destroy hook 9 on the payload, then frees. -/
theorem C8_Release_teardown_witness :
    (vlc_video_context_Release vctxFix).2 =
      [VCtxEvent.releaseDevice 4,
       VCtxEvent.destroyHook 9 (some [3, 5]),
       VCtxEvent.freeCtx] := by
  have := (C8_Release_teardown vctxFix rfl).2
  simpa [vctxFix] using this

/-- C3: for every video context and queried type tag, `GetPrivate` returns
the address of the trailing payload if and only if the context is non-null
and the queried tag equals the stored tag; a null context or a mismatched
tag yields NULL, never a non-null address. -/
theorem C3_GetPrivate_characterization (vctx : Option vlc_video_context)
    (type : vlc_video_context_type) (p : List Nat) :
    vlc_video_context_GetPrivate vctx type = some p ↔
      ∃ v, vctx = some v ∧ v.private_type = type ∧ p = v.private_data := by
  cases vctx with
  | none => simp [vlc_video_context_GetPrivate]
  | some v =>
    by_cases h : v.private_type = type
    all_goals simp [vlc_video_context_GetPrivate, h]
    all_goals tauto

/-- Witness for C3 at a concrete context and matching tag. -/
theorem C3_GetPrivate_characterization_witness :
    vlc_video_context_GetPrivate (some vctxFix)
      vlc_video_context_type.VLC_VIDEO_CONTEXT_VAAPI = some [3, 5] :=
  (C3_GetPrivate_characterization (some vctxFix)
      vlc_video_context_type.VLC_VIDEO_CONTEXT_VAAPI [3, 5]).mpr
    ⟨vctxFix, rfl, rfl, rfl⟩

/-- C6: `decoder_UpdateVideoOutput` returns -1 and invokes no callback when
the input category is not video, the callback table is absent, or the
`format_update` hook is unset; otherwise it invokes the hook once, passing
the given optional video context, and returns the hook's result. -/
theorem C6_UpdateVideoOutput (dec : decoder_t) (vctx_out : Option Nat) :
    ((dec.fmt_in.i_cat ≠ es_format_category_e.VIDEO_ES ∨
        Option.bind dec.cbs (fun c => c.video.format_update) = none) →
      decoder_UpdateVideoOutput dec vctx_out = (-1, none)) ∧
    (∀ c ret, dec.fmt_in.i_cat = es_format_category_e.VIDEO_ES →
      dec.cbs = some c → c.video.format_update = some ret →
      decoder_UpdateVideoOutput dec vctx_out = (ret, some vctx_out)) := by
  constructor
  · intro h
    rcases h with h | h
    · simp [decoder_UpdateVideoOutput, h]
    · cases hc : dec.cbs with
      | none => simp [decoder_UpdateVideoOutput, hc]
      | some c =>
        rw [hc] at h
        simp only [Option.some_bind] at h
        by_cases hcat : dec.fmt_in.i_cat = es_format_category_e.VIDEO_ES <;>
          simp [decoder_UpdateVideoOutput, hc, hcat, h]
  · intro c ret hcat hc hhook
    simp [decoder_UpdateVideoOutput, hcat, hc, hhook]

/-- Witness for C6: on an audio-category decoder the operation returns -1
and performs no callback invocation. -/
theorem C6_UpdateVideoOutput_witness :
    decoder_UpdateVideoOutput decAudioNoCbs none = (-1, none) :=
  (C6_UpdateVideoOutput decAudioNoCbs none).1 (Or.inl (by decide))

/-- C5 counterexample: the claim that `decoder_NewPicture` reports an error
result (no picture) in all builds whenever the category is not video or the
callback table is unset is false: an audio-category decoder whose callback
table has a `buffer_new` hook gets that hook's picture back (here picture
allocation 7), not an error result. -/
theorem C5_NewPicture_counterexample :
    ¬ (∀ (alloc : Nat → Option Nat) (dec : decoder_t),
        (dec.fmt_in.i_cat ≠ es_format_category_e.VIDEO_ES ∨ dec.cbs = none) →
        decoder_NewPicture alloc dec = some none) := by
  intro h
  have := h (fun _ => none) decAudioWithCbs (Or.inl (by decide))
  simp [decoder_NewPicture, decAudioWithCbs, decAudioNoCbs] at this

/-- C5 amended: in release builds `decoder_NewPicture` performs no defensive
category or callback-table check at all.  With no callback table set, the
table access is undefined behavior (modelled as the crash result `none`),
not an error return; with a table set — whatever the category — it delegates
to the `buffer_new` hook when present and otherwise falls back to
`picture_NewFromFormat` on the decoder's output video format.  The
category/table contract is only asserted in debug builds. -/
theorem C5_NewPicture_amended (alloc : Nat → Option Nat) (dec : decoder_t) :
    (dec.cbs = none → decoder_NewPicture alloc dec = none) ∧
    (∀ c, dec.cbs = some c → c.video.buffer_new = none →
      decoder_NewPicture alloc dec = some (alloc dec.fmt_out.video)) ∧
    (∀ c p, dec.cbs = some c → c.video.buffer_new = some p →
      decoder_NewPicture alloc dec = some p) := by
  refine ⟨fun h => by simp [decoder_NewPicture, h], ?_, ?_⟩
  · intro c hc hb
    simp [decoder_NewPicture, hc, hb]
  · intro c p hc hb
    simp [decoder_NewPicture, hc, hb]

/-- Witness for the amended C5: the concrete audio decoder with a
`buffer_new` hook obtains that hook's picture. -/
theorem C5_NewPicture_amended_witness :
    decoder_NewPicture (fun _ => none) decAudioWithCbs = some (some 7) :=
  (C5_NewPicture_amended (fun _ => none) decAudioWithCbs).2.2
    { video := { format_update := some 0, buffer_new := some (some 7),
                 abort_pictures := none } } (some 7) rfl rfl

/-- C9: `decoder_Clean` is idempotent: a second `Clean` immediately after a
first performs no further release (the free log is unchanged, so no double
release of module, formats or description) and leaves the decoder state
unchanged; in particular it is safe when the module or description is
already null. -/
theorem C9_Clean_idempotent (d : decoder_t) (log : List Nat) :
    decoder_Clean (decoder_Clean d log).1 (decoder_Clean d log).2 =
      decoder_Clean d log := by
  cases hm : d.p_module <;> cases hd : d.p_description <;>
    simp [decoder_Clean, es_format_Clean, es_format_Init, hm, hd]

/-- C10: `decoder_Init` modifies only the two format descriptors, the module
slot, the four function-pointer slots, the frame-drop flag and the
extra-picture-buffer count; the description pointer and the callback table
are left exactly as they were, so a following `Clean` reads a description
pointer `Init` never initialized. -/
theorem C10_Init_frame (d : decoder_t) (fmt : es_format_t) :
    decoder_Init d fmt =
      { d with
        i_extra_picture_buffers := 0
        b_frame_drop_allowed := false
        pf_decode := none
        pf_get_cc := none
        pf_packetize := none
        pf_flush := none
        p_module := none
        fmt_in := es_format_Copy fmt
        fmt_out := es_format_Init fmt.i_cat 0 } ∧
    (decoder_Init d fmt).p_description = d.p_description ∧
    (decoder_Init d fmt).cbs = d.cbs := by
  refine ⟨rfl, rfl, rfl⟩

/-! Part 7: exactly-once teardown under interleaved Hold/Release (C2).
Helper lemmas shared with nothing else follow, then the claim. -/

/-- Unfolding one trailing step of a trace. -/
theorem rcRun_append (t : List RcOp) (op : RcOp) :
    rcRun (t ++ [op]) = rcStep (rcRun t) op := by
  simp [rcRun, List.foldl_append]

/-- A trace every one of whose prefixes has at least as many holds as
releases never runs teardown, and its counter stays at
`1 + holds - releases`. -/
theorem rcRun_no_teardown (t : List RcOp)
    (h : ∀ n, releases (t.take n) ≤ holds (t.take n)) :
    rcRun t = (1 + holds t - releases t, 0) := by
  induction t using List.reverseRecOn with
  | nil => simp [rcRun, holds, releases]
  | append_singleton t op ih =>
    have htake : ∀ n, releases (t.take n) ≤ holds (t.take n) := by
      intro n
      rcases le_or_lt n t.length with hn | hn
      · have hx := h n
        rwa [List.take_append_of_le_length hn] at hx
      · rw [List.take_of_length_le hn.le]
        have hx := h t.length
        rwa [List.take_append_of_le_length le_rfl, List.take_length] at hx
    have hfull : releases (t ++ [op]) ≤ holds (t ++ [op]) := by
      have hx := h (t.length + 1)
      rwa [List.take_of_length_le (by simp)] at hx
    have hrun := ih htake
    cases op with
    | hold =>
      rw [rcRun_append, hrun]
      have ht : releases t ≤ holds t := by
        have hx := htake t.length
        rwa [List.take_length] at hx
      have h1 : holds (t ++ [RcOp.hold]) = holds t + 1 := by
        simp [holds, List.count_append]
      have h2 : releases (t ++ [RcOp.hold]) = releases t := by
        simp [releases, List.count_append]
      rw [h1, h2]
      simp only [rcStep, vlc_atomic_rc_inc]
      have harith : 1 + holds t - releases t + 1 = 1 + (holds t + 1) - releases t := by
        omega
      rw [harith]
    | release =>
      rw [rcRun_append, hrun]
      have h1 : holds (t ++ [RcOp.release]) = holds t := by
        simp [holds, List.count_append]
      have h2 : releases (t ++ [RcOp.release]) = releases t + 1 := by
        simp [releases, List.count_append]
      rw [h1, h2]
      rw [h1, h2] at hfull
      have hc : ¬ (1 + holds t - releases t = 1) := by omega
      simp only [rcStep, vlc_atomic_rc_dec]
      simp [hc]
      omega

/-- C2: for every interleaving of `Hold`/`Release` steps on a refcounted
handle (decoder device or video context) in which each creation/`Hold` is
paired with exactly one `Release` — every proper prefix has at most as many
releases as holds, and the whole trace has exactly one more release than
holds — the teardown path (backend `close`/`destroy` hook then free) runs
exactly once, and only at the very last `Release`: no proper prefix has run
it.  Each step is a single atomic operation, so an arbitrary cross-thread
interleaving is exactly an arbitrary such trace. -/
theorem C2_exactly_once_teardown (t : List RcOp)
    (hpre : ∀ n, n < t.length → releases (t.take n) ≤ holds (t.take n))
    (hbal : releases t = holds t + 1) :
    rcRun t = (0, 1) ∧ ∀ n, n < t.length → (rcRun (t.take n)).2 = 0 := by
  induction t using List.reverseRecOn with
  | nil => simp [releases, holds] at hbal
  | append_singleton t op ih =>
    clear ih
    have hpre' : ∀ n, releases (t.take n) ≤ holds (t.take n) := by
      intro n
      rcases le_or_lt n t.length with hn | hn
      · have hx := hpre n (by simp; omega)
        rwa [List.take_append_of_le_length hn] at hx
      · rw [List.take_of_length_le hn.le]
        have hx := hpre t.length (by simp)
        rwa [List.take_append_of_le_length le_rfl, List.take_length] at hx
    have ht : releases t ≤ holds t := by
      have hx := hpre' t.length
      rwa [List.take_length] at hx
    cases op with
    | hold =>
      exfalso
      have h1 : holds (t ++ [RcOp.hold]) = holds t + 1 := by
        simp [holds, List.count_append]
      have h2 : releases (t ++ [RcOp.hold]) = releases t := by
        simp [releases, List.count_append]
      rw [h1, h2] at hbal
      omega
    | release =>
      have h1 : holds (t ++ [RcOp.release]) = holds t := by
        simp [holds, List.count_append]
      have h2 : releases (t ++ [RcOp.release]) = releases t + 1 := by
        simp [releases, List.count_append]
      rw [h1, h2] at hbal
      have heq : releases t = holds t := by omega
      have hrun := rcRun_no_teardown t hpre'
      constructor
      · rw [rcRun_append, hrun, heq]
        have harith : 1 + holds t - holds t = 1 := by omega
        rw [harith]
        simp [rcStep, vlc_atomic_rc_dec]
      · intro n hn
        have hn' : n ≤ t.length := by
          simp at hn
          omega
        rw [List.take_append_of_le_length hn']
        have hx := rcRun_no_teardown (t.take n)
          (fun m => by rw [List.take_take]; exact hpre' (min m n))
        rw [hx]

/-- Witness for C2: the trace hold, release, release — two owners releasing
in some interleaving — tears down exactly once, ending at counter zero. -/
theorem C2_exactly_once_teardown_witness :
    rcRun [RcOp.hold, RcOp.release, RcOp.release] = (0, 1) :=
  (C2_exactly_once_teardown [RcOp.hold, RcOp.release, RcOp.release]
    (by decide) (by decide)).1

end DecoderHelpers
